import Mathlib

/-!
Verification of the SafeTransit location resolution and ranking engine.

The TypeScript sources are shallowly embedded here:
* JavaScript numbers are modelled as rationals; transcendental helpers
  (haversine trigonometry, base-10 logarithm) are abstracted as function
  parameters, since the claims under study never depend on their values.
* Network effects (database, external geocoders, Overpass) are modelled as
  explicit outcome parameters: `Except Unit` for calls whose failure is
  observable, `Option` for calls that already absorb their own failures.
* JavaScript strings are modelled as Lean strings, with character-list
  implementations of toLowerCase, startsWith, includes and split so that
  proofs can evaluate them.
-/

/-- ASCII lower-casing of a single character, as JS toLowerCase acts on the
ASCII range used by the repository. -/
def lowerChar (c : Char) : Char :=
  if 65 ≤ c.toNat ∧ c.toNat ≤ 90 then Char.ofNat (c.toNat + 32) else c

/-- Model of JS String.prototype.toLowerCase for ASCII data. -/
def lowerStr (s : String) : String := String.mk (s.data.map lowerChar)

/-- listStarts pat s: does the character list s start with pat?
Models JS String.prototype.startsWith. -/
def listStarts : List Char → List Char → Bool
  | [], _ => true
  | _ :: _, [] => false
  | a :: as, b :: bs => if a = b then listStarts as bs else false

/-- listHasInfix s pat: does s contain pat as a contiguous run?
Models JS String.prototype.includes. -/
def listHasInfix (s pat : List Char) : Bool :=
  if listStarts pat s then true
  else match s with
    | [] => false
    | _ :: t => listHasInfix t pat

/-- ASCII whitespace test used to model the regular expression split on
whitespace in calculateTextScore. -/
def isWs (c : Char) : Bool := c.toNat = 32 ∨ c.toNat = 9 ∨ c.toNat = 10 ∨ c.toNat = 13

/-- Round half away from zero on a nonnegative rational, the rounding JS
Number.prototype.toFixed applies to the magnitude. -/
def jsRound (q : ℚ) : ℤ := ⌊q + 1 / 2⌋

/-- Left-pad the decimal digits of n with zeros up to width d. -/
def padFrac (n : ℕ) (d : ℕ) : String :=
  let s := toString n
  String.mk (List.replicate (d - s.length) '0') ++ s

/-- Decimal rendering of a nonnegative scaled integer with d fraction
digits. -/
def decStr (n : ℕ) (d : ℕ) : String :=
  toString (n / 10 ^ d) ++ "." ++ padFrac (n % 10 ^ d) d

/-- Model of JS Number.prototype.toFixed (d ≥ 1 digits): the sign is split
off and the magnitude is scaled, rounded and rendered. -/
def jsToFixed (d : ℕ) (q : ℚ) : String :=
  if q < 0 then "-" ++ decStr (jsRound (-q * 10 ^ d)).toNat d
  else decStr (jsRound (q * 10 ^ d)).toNat d

/-- A location record as it flows through search.ts: the fields of the
Location database row together with the optional fields that the ranking
layer inspects (text_similarity, the SQL alias text_score, distance_km). -/
structure Loc where
  id : String
  name : String
  address : String
  latitude : ℚ
  longitude : ℚ
  ltype : String
  search_count : ℚ
  text_similarity : Option ℚ
  text_score : Option ℚ
  distance_km : Option ℚ
deriving DecidableEq

/-- The lower-cased display name, the first identity key of mergeResults. -/
def nameKey (l : Loc) : String := lowerStr l.name

/-- The coordinate rounded to 4 decimals, the second identity key of
mergeResults. -/
def coordKey (l : Loc) : String :=
  jsToFixed 4 l.latitude ++ "," ++ jsToFixed 4 l.longitude

/-- One step of the addUnique closure of mergeResults: accept the candidate
when neither of its keys is already claimed, else skip it. -/
def addStep (st : List Loc × List String) (item : Loc) : List Loc × List String :=
  if ¬ st.2.contains (nameKey item) ∧ ¬ st.2.contains (coordKey item) then
    (st.1 ++ [item], st.2 ++ [nameKey item, coordKey item])
  else st

/-- The addUnique closure of mergeResults: fold provider candidates into the
accumulated (merged, seen) state. -/
def addUnique (st : List Loc × List String) (results : List Loc) :
    List Loc × List String :=
  results.foldl addStep st

/-- mergeResults from search.ts: local candidates seed both the output list
and the seen-key set; Photon candidates are folded in first, Nominatim
candidates second. -/
def mergeResults (localResults photon nominatim : List Loc) : List Loc :=
  let seen := localResults.foldl (fun s l => s ++ [nameKey l, coordKey l]) []
  (addUnique (addUnique (localResults, seen) photon) nominatim).1

/-- Query context handed to rankSearchResults (the fields the scorer
actually reads: the query text and the optional user identity). -/
structure SearchContext where
  query : String
  userId : Option String

/-- The personalization sets produced by getUserPlacePreferences. -/
structure UserPrefs where
  frequentPlaces : List String
  savedPlaces : List String

/-- calculateTextScore from searchRanking.ts: use the result's
text_similarity field verbatim when present, otherwise the heuristic
ladder over the lower-cased name and query. -/
def calculateTextScore (result : Loc) (query : String) : ℚ :=
  match result.text_similarity with
  | some v => v
  | none =>
    let name := lowerStr result.name
    let queryLower := lowerStr query
    if name = queryLower then 1.0
    else if listStarts queryLower.data name.data then 0.8
    else if listHasInfix name.data queryLower.data then 0.6
    else if (name.data.splitOnP isWs).any (fun w => listStarts queryLower.data w) then 0.5
    else 0.3

/-- The 20 km proximity decay window of calculateProximityScore. -/
def MAX_DISTANCE : ℚ := 20

/-- calculateProximityScore from searchRanking.ts. -/
def calculateProximityScore (distanceKm : Option ℚ) : ℚ :=
  match distanceKm with
  | none => 0.5
  | some d => if d ≥ MAX_DISTANCE then 0 else 1 - d / MAX_DISTANCE

/-- calculatePopularityScore from searchRanking.ts, with log10 abstracted
as a parameter (transcendental). -/
def calculatePopularityScore (log10 : ℚ → ℚ) (searchCount : ℚ) : ℚ :=
  if searchCount ≤ 0 then 0
  else min (log10 (searchCount + 1) / log10 1000) 1.0

/-- calculateUserScore from searchRanking.ts. -/
def calculateUserScore (result : Loc)
    (userFrequentPlaces userSavedPlaces : List String) : ℚ :=
  let score : ℚ :=
    if userSavedPlaces.contains result.id then 0 + 1.0
    else if userFrequentPlaces.contains result.id then 0 + 0.6
    else 0
  min score 1.0

/-- The fixed ranking weights of rankSearchResults. -/
structure RankWeights where
  text : ℚ
  proximity : ℚ
  popularity : ℚ
  user : ℚ

/-- WEIGHTS from rankSearchResults. -/
def WEIGHTS : RankWeights :=
  { text := 0.35, proximity := 0.30, popularity := 0.20, user := 0.15 }

/-- A scored candidate: the location spread together with the four
sub-scores and the composite score. -/
structure RankedLocation where
  place : Loc
  text_score : ℚ
  proximity_score : ℚ
  popularity_score : ℚ
  user_score : ℚ
  final_score : ℚ
deriving DecidableEq

/-- The per-candidate scoring body of rankSearchResults. -/
def scoreResult (log10 : ℚ → ℚ) (query : String) (prefs : UserPrefs)
    (result : Loc) : RankedLocation :=
  let textScore := calculateTextScore result query
  let proximityScore := calculateProximityScore result.distance_km
  let popularityScore := calculatePopularityScore log10 result.search_count
  let userScore := calculateUserScore result prefs.frequentPlaces prefs.savedPlaces
  { place := result
    text_score := textScore
    proximity_score := proximityScore
    popularity_score := popularityScore
    user_score := userScore
    final_score :=
      textScore * WEIGHTS.text +
      proximityScore * WEIGHTS.proximity +
      popularityScore * WEIGHTS.popularity +
      userScore * WEIGHTS.user }

/-- rankSearchResults from searchRanking.ts: fetch preferences when a user
identity is present (the lookup is an oracle parameter), score every
candidate, and sort descending by final score (stable). -/
def rankSearchResults (log10 : ℚ → ℚ) (results : List Loc)
    (context : SearchContext) (prefsOracle : UserPrefs) : List RankedLocation :=
  let userPrefs :=
    match context.userId with
    | some _ => prefsOracle
    | none => { frequentPlaces := [], savedPlaces := [] }
  (results.map (scoreResult log10 context.query userPrefs)).mergeSort
    (fun a b => decide (b.final_score ≤ a.final_score))

/-- Response of the text-search endpoint: a ranked result list on success,
or an HTTP error status with a message. -/
inductive SearchResp where
  | ok (results : List RankedLocation)
  | err (status : ℕ) (msg : String)
deriving DecidableEq

/-- Observable run of the search handler: the response plus whether the
external providers were invoked. -/
structure SearchRun where
  resp : SearchResp
  providersInvoked : Bool
deriving DecidableEq

/-- searchPhoton from search.ts as seen by the handler: any fetch failure,
non-OK response or malformed payload is caught and becomes an empty list. -/
def searchPhoton (outcome : Except Unit (List Loc)) : List Loc :=
  match outcome with
  | .ok l => l
  | .error _ => []

/-- searchNominatim from search.ts, same failure absorption as Photon. -/
def searchNominatim (outcome : Except Unit (List Loc)) : List Loc :=
  match outcome with
  | .ok l => l
  | .error _ => []

/-- The fixed result limit of the search handler. -/
def searchLimit : ℕ := 10

/-- Model of JS String.prototype.trim: drop ASCII whitespace from both
ends. -/
def trimStr (s : String) : String :=
  String.mk (((s.data.dropWhile isWs).reverse.dropWhile isWs).reverse)

/-- Step 4 of the search handler: attach a haversine distance to results
lacking one when the user supplied a location (JS truthiness: undefined or
zero distance triggers recomputation). -/
def addDistances (dist : ℚ → ℚ → ℚ → ℚ → ℚ) (userLat userLon : ℚ)
    (results : List Loc) : List Loc :=
  results.map fun r =>
    if r.distance_km = none ∨ r.distance_km = some 0 then
      { r with distance_km := some (dist userLat userLon r.latitude r.longitude) }
    else r

/-- The GET /api/locations/search handler. Oracles: log10 and dist for the
transcendental math, prefsOracle for the personalization lookup, and one
Except outcome per network dependency (local store, Photon, Nominatim). -/
def searchHandler (log10 : ℚ → ℚ) (dist : ℚ → ℚ → ℚ → ℚ → ℚ)
    (q : String) (userLoc : Option (ℚ × ℚ)) (userId : Option String)
    (prefsOracle : UserPrefs)
    (localOutcome photonOutcome nominatimOutcome : Except Unit (List Loc)) :
    SearchRun :=
  if (trimStr q).length < 2 then
    { resp := .err 400 "Query parameter q is required and must be at least 2 characters"
      providersInvoked := false }
  else
    match localOutcome with
    | .error _ =>
      { resp := .err 500 "Internal server error", providersInvoked := false }
    | .ok localResults =>
      let invoked := localResults.length < 5
      let photonResults := if invoked then searchPhoton photonOutcome else []
      let nominatimResults := if invoked then searchNominatim nominatimOutcome else []
      let allResults := mergeResults localResults photonResults nominatimResults
      let allResults :=
        match userLoc with
        | some (ula, ulo) => addDistances dist ula ulo allResults
        | none => allResults
      let ranked := rankSearchResults log10 allResults
        { query := trimStr q, userId := userId } prefsOracle
      { resp := .ok (ranked.take searchLimit), providersInvoked := invoked }

/-- Body of a reverse-geocode response. -/
structure RevPlace where
  id : String
  name : String
  address : String
  latitude : ℚ
  longitude : ℚ
  rtype : String
  source : String
deriving DecidableEq

/-- Response of the reverse-geocode endpoint. -/
inductive RevResp where
  | ok (body : RevPlace)
  | err (status : ℕ) (msg : String)
deriving DecidableEq

/-- The GET /api/locations/reverse handler. latP and lonP are the
parseFloat results of the query parameters (none models NaN: a missing or
non-numeric parameter). cacheOutcome is the findByCoordinates call, whose
thrown error models the unexpected internal failure caught by the outer
handler; each provider already absorbs its own failures into none. -/
def reverseHandler (latP lonP : Option ℚ) (nowMs : ℕ)
    (cacheOutcome : Except Unit (Option Loc))
    (photonResult nominatimResult : Option RevPlace) : RevResp :=
  match latP, lonP with
  | some latitude, some longitude =>
    if latitude < -90 ∨ latitude > 90 ∨ longitude < -180 ∨ longitude > 180 then
      .err 400 "Coordinates out of range"
    else
      match cacheOutcome with
      | .error _ =>
        .ok { id := "error_" ++ toString nowMs
              name := "Selected Location"
              address := jsToFixed 6 latitude ++ ", " ++ jsToFixed 6 longitude
              latitude := latitude, longitude := longitude
              rtype := "pin_drop", source := "error_fallback" }
      | .ok (some cached) =>
        .ok { id := cached.id, name := cached.name, address := cached.address
              latitude := cached.latitude, longitude := cached.longitude
              rtype := cached.ltype, source := "cache" }
      | .ok none =>
        match photonResult with
        | some result => .ok result
        | none =>
          match nominatimResult with
          | some result => .ok result
          | none =>
            .ok { id := "coord_" ++ jsToFixed 4 latitude ++ "_" ++ jsToFixed 4 longitude
                  name := "Selected Location"
                  address := jsToFixed 6 latitude ++ ", " ++ jsToFixed 6 longitude
                  latitude := latitude, longitude := longitude
                  rtype := "pin_drop", source := "fallback" }
  | _, _ => .err 400 "Invalid coordinates. Required: lat and lon query parameters"

/-- A validation rule of coordinateValidator.ts. -/
structure ValidationRule where
  maxSnapDistance : ℚ
  strategy : String
deriving DecidableEq

/-- The VALIDATION_RULES dictionary of coordinateValidator.ts as a partial
lookup on the normalized category string. -/
def VALIDATION_RULES (key : String) : Option ValidationRule :=
  if key = "school" then some ⟨100, "Look for gate/entrance tags"⟩
  else if key = "university" then some ⟨100, "Look for gate/entrance tags"⟩
  else if key = "college" then some ⟨100, "Look for gate/entrance tags"⟩
  else if key = "mall" then some ⟨150, "Prefer main roads, parking"⟩
  else if key = "shopping_centre" then some ⟨150, "Prefer main roads, parking"⟩
  else if key = "supermarket" then some ⟨100, "Prefer parking area"⟩
  else if key = "airport" then some ⟨200, "Validate terminal entrance"⟩
  else if key = "aerodrome" then some ⟨200, "Validate terminal entrance"⟩
  else if key = "station" then some ⟨50, "Check platform/entrance"⟩
  else if key = "railway_station" then some ⟨50, "Check platform/entrance"⟩
  else if key = "subway_entrance" then some ⟨50, "Check platform/entrance"⟩
  else if key = "hospital" then some ⟨100, "Look for emergency/main entrance"⟩
  else if key = "general" then some ⟨50, "Basic road validation"⟩
  else none

/-- getValidationRules from coordinateValidator.ts: normalize the category
(lower-case; missing or empty falls back to general) and look it up, with
the general rule as default. -/
def getValidationRules (poiType : Option String) : ValidationRule :=
  let normalizedType :=
    match poiType with
    | none => "general"
    | some s => if lowerStr s = "" then "general" else lowerStr s
  (VALIDATION_RULES normalizedType).getD ⟨50, "Basic road validation"⟩

/-- Outcome of one Overpass API call: a thrown fetch error, a non-OK HTTP
response, or a parsed list of ways, each way a list of geometry nodes given
as latitude-longitude pairs. -/
inductive OverpassOutcome where
  | thrown
  | nonOk
  | okResp (elements : List (List (ℚ × ℚ)))

/-- isOnRoad from coordinateValidator.ts: true when the Overpass response
contains at least one way; a thrown error or a non-OK response is absorbed
and treated as on-road (fail open). -/
def isOnRoad (outcome : OverpassOutcome) : Bool :=
  match outcome with
  | .thrown => true
  | .nonOk => true
  | .okResp elements => decide (0 < elements.length)

/-- A closest-road candidate tracked by findNearestRoad. -/
structure ClosestRoad where
  lat : ℚ
  lon : ℚ
  distance : ℚ
deriving DecidableEq

/-- findNearestRoad from coordinateValidator.ts: none on a thrown error,
non-OK response, or empty element list; otherwise the first strictly
closest geometry node over all returned ways. -/
def findNearestRoad (outcome : OverpassOutcome)
    (dist : ℚ → ℚ → ℚ → ℚ → ℚ) (lat lon : ℚ) : Option ClosestRoad :=
  match outcome with
  | .thrown => none
  | .nonOk => none
  | .okResp elements =>
    if elements.length = 0 then none
    else
      (elements.flatMap id).foldl
        (fun closest node =>
          let d := dist lat lon node.1 node.2
          match closest with
          | none => some ⟨node.1, node.2, d⟩
          | some c => if d < c.distance then some ⟨node.1, node.2, d⟩ else closest)
        none

/-- Result of coordinate validation. -/
structure ValidationResult where
  latitude : ℚ
  longitude : ℚ
  adjusted : Bool
  distance_meters : Option ℚ
  source : String
deriving DecidableEq

/-- snapToNearestRoad from coordinateValidator.ts. roadCheck is the
Overpass outcome of the 20 m on-road probe; overpass gives the outcome of
the road query at the radius the code requests, which is always the
category rule's maxSnapDistance. -/
def snapToNearestRoad (roadCheck : OverpassOutcome)
    (overpass : ℚ → OverpassOutcome) (dist : ℚ → ℚ → ℚ → ℚ → ℚ)
    (lat lon : ℚ) (poiType : Option String) : ValidationResult :=
  let rules := getValidationRules poiType
  if isOnRoad roadCheck then
    { latitude := lat, longitude := lon, adjusted := false
      distance_meters := none, source := "original" }
  else
    match findNearestRoad (overpass rules.maxSnapDistance) dist lat lon with
    | none =>
      { latitude := lat, longitude := lon, adjusted := false
        distance_meters := none, source := "original" }
    | some nearestRoad =>
      { latitude := nearestRoad.lat, longitude := nearestRoad.lon
        adjusted := true, distance_meters := some nearestRoad.distance
        source := "road_snapped" }

/-- validateAndAdjustCoordinates from coordinateValidator.ts: delegate to
snapToNearestRoad (the outer catch is unreachable in this model because
every dependency failure is already absorbed inside the probes). -/
def validateAndAdjustCoordinates (roadCheck : OverpassOutcome)
    (overpass : ℚ → OverpassOutcome) (dist : ℚ → ℚ → ℚ → ℚ → ℚ)
    (latitude longitude : ℚ) (poiType : Option String) : ValidationResult :=
  snapToNearestRoad roadCheck overpass dist latitude longitude poiType

/-- A pickup_points row as touched by PickupPointRepository.verify. -/
structure PickupPoint where
  verification_count : ℤ
  verified : Bool
  verified_at : Option ℕ
  verified_by : Option String
deriving DecidableEq

namespace PickupPointRepository

/-- The UPDATE statement of PickupPointRepository.verify: every CASE reads
the old row values (standard SQL UPDATE semantics), now is the NOW()
timestamp. -/
def verify (now : ℕ) (s : PickupPoint) : PickupPoint :=
  { verification_count := s.verification_count + 1
    verified :=
      if s.verification_count + 1 ≥ 3 then true else s.verified
    verified_at :=
      if s.verification_count + 1 ≥ 3 ∧ s.verified = false then some now
      else s.verified_at
    verified_by :=
      if s.verification_count + 1 ≥ 3 ∧ s.verified = false then some "user"
      else s.verified_by }

/-- A sequence of confirmations applied in order, each with its NOW()
timestamp. -/
def verifySeq : List ℕ → PickupPoint → PickupPoint
  | [], s => s
  | t :: ts, s => verifySeq ts (verify t s)

end PickupPointRepository

/-- The local candidate of the deduplication scenario in the spec. -/
def robinsonsLocal : Loc :=
  { id := "local_1", name := "Robinsons Galleria", address := "Ortigas"
    latitude := 14.6186, longitude := 121.0567, ltype := "mall"
    search_count := 12, text_similarity := none, text_score := none
    distance_km := none }

/-- The provider candidate of the deduplication scenario: a different name
at the same coordinates. -/
def robinsonsProvider : Loc :=
  { id := "photon_9_0", name := "Robinsons Galleria Mall", address := "Ortigas"
    latitude := 14.6186, longitude := 121.0567, ltype := "mall"
    search_count := 0, text_similarity := none, text_score := none
    distance_km := none }

/-- A row as produced by LocationRepository.searchWithProximity: the SQL
trigram similarity is aliased text_score, and no field named
text_similarity exists in the payload. -/
def jollibeeOrtigasRow : Loc :=
  { id := "local_2", name := "Jollibee Ortigas", address := "Ortigas Ave"
    latitude := 14.59, longitude := 121.06, ltype := "fast_food"
    search_count := 40, text_similarity := none, text_score := some 0.9
    distance_km := some 1 }

/-- A sample candidate used to exercise the ranking scorer. -/
def sampleLoc : Loc :=
  { id := "local_3", name := "Sample Place", address := "Somewhere"
    latitude := 14.6, longitude := 121.0, ltype := "general"
    search_count := 0, text_similarity := some 0.5, text_score := none
    distance_km := some 10 }

/-- The two identity keys of a candidate list, in claim order. -/
def keyList (ls : List Loc) : List String :=
  ls.flatMap (fun x => [nameKey x, coordKey x])

/-- Spec-level characterization of deduplication: walk the provider
candidates in order, accepting a candidate exactly when neither its
lower-cased name nor its 4-decimal coordinate key is already claimed, and
claiming both keys on acceptance. -/
def acceptedProviders (seen : List String) : List Loc → List Loc
  | [] => []
  | item :: rest =>
    if ¬ seen.contains (nameKey item) ∧ ¬ seen.contains (coordKey item) then
      item :: acceptedProviders (seen ++ [nameKey item, coordKey item]) rest
    else acceptedProviders seen rest

theorem lowerStr_robinsons :
    lowerStr "Robinsons Galleria" = "robinsons galleria" := by decide

theorem jsToFixed_lat : jsToFixed 4 (14.6186 : ℚ) = "14.6186" := by
  have h : jsRound ((14.6186 : ℚ) * 10 ^ 4) = 146186 := by
    unfold jsRound
    rw [Int.floor_eq_iff]
    constructor <;> norm_num
  rw [jsToFixed, if_neg (by norm_num), h]
  decide

theorem jsToFixed_lon : jsToFixed 4 (121.0567 : ℚ) = "121.0567" := by
  have h : jsRound ((121.0567 : ℚ) * 10 ^ 4) = 1210567 := by
    unfold jsRound
    rw [Int.floor_eq_iff]
    constructor <;> norm_num
  rw [jsToFixed, if_neg (by norm_num), h]
  decide

theorem verifySeq_count (ts : List ℕ) :
    ∀ s : PickupPoint,
      (PickupPointRepository.verifySeq ts s).verification_count =
        s.verification_count + ts.length := by
  induction ts with
  | nil => intro s; simp [PickupPointRepository.verifySeq]
  | cons t ts ih =>
    intro s
    rw [PickupPointRepository.verifySeq, ih]
    simp [PickupPointRepository.verify]
    omega

theorem verifySeq_stamp_stable (ts : List ℕ) :
    ∀ s : PickupPoint, s.verified = true →
      (PickupPointRepository.verifySeq ts s).verified = true ∧
      (PickupPointRepository.verifySeq ts s).verified_at = s.verified_at ∧
      (PickupPointRepository.verifySeq ts s).verified_by = s.verified_by := by
  induction ts with
  | nil => intro s h; simp [PickupPointRepository.verifySeq, h]
  | cons t ts ih =>
    intro s h
    rw [PickupPointRepository.verifySeq]
    have hstep : (PickupPointRepository.verify t s).verified = true ∧
        (PickupPointRepository.verify t s).verified_at = s.verified_at ∧
        (PickupPointRepository.verify t s).verified_by = s.verified_by := by
      simp [PickupPointRepository.verify, h]
    obtain ⟨h1, h2, h3⟩ := ih (PickupPointRepository.verify t s) hstep.1
    exact ⟨h1, h2.trans hstep.2.1, h3.trans hstep.2.2⟩

/-- C3: each confirmation increments verification_count by one; the point
becomes verified exactly when the counter first reaches 3, with verified_at
and verified_by stamped only on that transition; later confirmations
increment the counter but leave the stamps unchanged, and verified never
reverts. For a freshly created point (counter 0, unverified, unstamped) a
trace of confirmations yields verified iff at least 3 confirmations, with
verified_at carrying the timestamp of exactly the third one. -/
theorem pickup_verify_transitions (now : ℕ) (s : PickupPoint) (ts : List ℕ) :
    (PickupPointRepository.verify now s).verification_count =
        s.verification_count + 1 ∧
    ((PickupPointRepository.verify now s).verified = true ↔
        3 ≤ s.verification_count + 1 ∨ s.verified = true) ∧
    (s.verified = true → (PickupPointRepository.verify now s).verified = true) ∧
    (s.verified = true →
        (PickupPointRepository.verify now s).verified_at = s.verified_at ∧
        (PickupPointRepository.verify now s).verified_by = s.verified_by) ∧
    (s.verified = false → 3 ≤ s.verification_count + 1 →
        (PickupPointRepository.verify now s).verified_at = some now ∧
        (PickupPointRepository.verify now s).verified_by = some "user") ∧
    (s.verification_count + 1 < 3 →
        (PickupPointRepository.verify now s).verified_at = s.verified_at ∧
        (PickupPointRepository.verify now s).verified_by = s.verified_by) ∧
    (s.verified = false → s.verification_count = 0 → s.verified_at = none →
        ((PickupPointRepository.verifySeq ts s).verified = true ↔ 3 ≤ ts.length) ∧
        (PickupPointRepository.verifySeq ts s).verification_count = ts.length ∧
        (PickupPointRepository.verifySeq ts s).verified_at = ts[2]?) := by
  refine ⟨?_, ?_, ?_, ?_, ?_, ?_, ?_⟩
  · simp [PickupPointRepository.verify]
  · by_cases h : 3 ≤ s.verification_count + 1 <;>
      simp [PickupPointRepository.verify, h]
  · intro h
    by_cases h3 : 3 ≤ s.verification_count + 1 <;>
      simp [PickupPointRepository.verify, h, h3]
  · intro h; simp [PickupPointRepository.verify, h]
  · intro h h3; simp [PickupPointRepository.verify, h, h3]
  · intro h3
    have h3n : ¬ (3 ≤ s.verification_count + 1) := by omega
    simp [PickupPointRepository.verify, h3n]
  · intro hv hc ha
    match ts with
    | [] =>
      simp [PickupPointRepository.verifySeq, hv, hc, ha]
    | [t1] =>
      have : ¬ ((3:ℤ) ≤ s.verification_count + 1) := by omega
      simp [PickupPointRepository.verifySeq, PickupPointRepository.verify,
        hv, hc, ha, this]
    | [t1, t2] =>
      have h1 : ¬ ((3:ℤ) ≤ s.verification_count + 1) := by omega
      have h2 : ¬ ((3:ℤ) ≤ s.verification_count + 1 + 1) := by omega
      simp [PickupPointRepository.verifySeq, PickupPointRepository.verify,
        hv, hc, ha, h1, h2]
    | t1 :: t2 :: t3 :: rest =>
      have h1 : ¬ ((3:ℤ) ≤ s.verification_count + 1) := by omega
      have h2 : ¬ ((3:ℤ) ≤ s.verification_count + 1 + 1) := by omega
      have h3 : (3:ℤ) ≤ s.verification_count + 1 + 1 + 1 := by omega
      have hs3 : PickupPointRepository.verifySeq (t1 :: t2 :: t3 :: rest) s =
          PickupPointRepository.verifySeq rest
            (PickupPointRepository.verify t3
              (PickupPointRepository.verify t2
                (PickupPointRepository.verify t1 s))) := by
        simp [PickupPointRepository.verifySeq]
      have hmid : (PickupPointRepository.verify t3
          (PickupPointRepository.verify t2
            (PickupPointRepository.verify t1 s))) =
          { verification_count := s.verification_count + 3, verified := true
            verified_at := some t3, verified_by := some "user" } := by
        simp [PickupPointRepository.verify, hv, ha, h1, h2, h3]
        omega
      obtain ⟨hst1, hst2, hst3⟩ :=
        verifySeq_stamp_stable rest
          ({ verification_count := s.verification_count + 3, verified := true
             verified_at := some t3, verified_by := some "user" }) rfl
      rw [hs3, hmid]
      refine ⟨by simp [hst1], ?_, by simp [hst2]⟩
      · rw [verifySeq_count]
        simp
        omega

/-- C3 witness: the spec scenario. A point with verification_count = 2 and
unverified becomes verified with verified_at stamped on the next
confirmation; a further confirmation raises the counter to 4 and leaves the
stamp unchanged. -/
theorem pickup_verify_transitions_witness :
    (PickupPointRepository.verify 100
      { verification_count := 2, verified := false
        verified_at := none, verified_by := some "user" }).verified_at = some 100 ∧
    (PickupPointRepository.verify 200
      (PickupPointRepository.verify 100
        { verification_count := 2, verified := false
          verified_at := none, verified_by := some "user" })).verified_at = some 100 ∧
    (PickupPointRepository.verify 200
      (PickupPointRepository.verify 100
        { verification_count := 2, verified := false
          verified_at := none, verified_by := some "user" })).verification_count = 4 := by
  have h1 := (pickup_verify_transitions 100
    { verification_count := 2, verified := false
      verified_at := none, verified_by := some "user" } []).2.2.2.2.1 rfl (by norm_num)
  have hverified := (pickup_verify_transitions 100
    { verification_count := 2, verified := false
      verified_at := none, verified_by := some "user" } []).2.1.mpr (by norm_num)
  have h2 := (pickup_verify_transitions 200
    (PickupPointRepository.verify 100
      { verification_count := 2, verified := false
        verified_at := none, verified_by := some "user" }) []).2.2.2.1 hverified
  have h3 := (pickup_verify_transitions 200
    (PickupPointRepository.verify 100
      { verification_count := 2, verified := false
        verified_at := none, verified_by := some "user" }) []).1
  refine ⟨h1.1, h2.1.trans h1.1, ?_⟩
  rw [h3, (pickup_verify_transitions 100
    { verification_count := 2, verified := false
      verified_at := none, verified_by := some "user" } []).1]
  decide

/-- C8: coordinate validation never propagates a dependency error: when the
road-proximity probe throws or returns a non-OK response, the coordinate is
treated as already valid and returned unchanged with adjusted = false and
source "original", whatever the snap query would have answered. -/
theorem validate_fails_open (overpass : ℚ → OverpassOutcome)
    (dist : ℚ → ℚ → ℚ → ℚ → ℚ) (lat lon : ℚ) (poiType : Option String) :
    validateAndAdjustCoordinates .thrown overpass dist lat lon poiType =
      { latitude := lat, longitude := lon, adjusted := false
        distance_meters := none, source := "original" } ∧
    validateAndAdjustCoordinates .nonOk overpass dist lat lon poiType =
      { latitude := lat, longitude := lon, adjusted := false
        distance_meters := none, source := "original" } := by
  constructor <;>
    simp [validateAndAdjustCoordinates, snapToNearestRoad, isOnRoad]

/-- C7: the category table of snap distances, and the snapping behavior
off-road: the road query radius is exactly the category's maxSnapDistance
(the result depends on the road source only through that radius); when no
road node is found within it the original coordinate is returned with
adjusted = false, and when one is found the result carries the snapped
coordinate, adjusted = true and the snap distance. -/
theorem snap_rules_and_behavior (roadCheck : OverpassOutcome)
    (overpass overpass2 : ℚ → OverpassOutcome) (dist : ℚ → ℚ → ℚ → ℚ → ℚ)
    (lat lon : ℚ) (poiType : Option String) :
    ((getValidationRules (some "school")).maxSnapDistance = 100 ∧
     (getValidationRules (some "university")).maxSnapDistance = 100 ∧
     (getValidationRules (some "college")).maxSnapDistance = 100 ∧
     (getValidationRules (some "mall")).maxSnapDistance = 150 ∧
     (getValidationRules (some "shopping_centre")).maxSnapDistance = 150 ∧
     (getValidationRules (some "supermarket")).maxSnapDistance = 100 ∧
     (getValidationRules (some "airport")).maxSnapDistance = 200 ∧
     (getValidationRules (some "aerodrome")).maxSnapDistance = 200 ∧
     (getValidationRules (some "station")).maxSnapDistance = 50 ∧
     (getValidationRules (some "railway_station")).maxSnapDistance = 50 ∧
     (getValidationRules (some "subway_entrance")).maxSnapDistance = 50 ∧
     (getValidationRules (some "hospital")).maxSnapDistance = 100 ∧
     (getValidationRules none).maxSnapDistance = 50 ∧
     (∀ s : String, VALIDATION_RULES (lowerStr s) = none →
        (getValidationRules (some s)).maxSnapDistance = 50)) ∧
    (isOnRoad roadCheck = false →
      (overpass (getValidationRules poiType).maxSnapDistance =
          overpass2 (getValidationRules poiType).maxSnapDistance →
        snapToNearestRoad roadCheck overpass dist lat lon poiType =
          snapToNearestRoad roadCheck overpass2 dist lat lon poiType) ∧
      (findNearestRoad (overpass (getValidationRules poiType).maxSnapDistance)
          dist lat lon = none →
        snapToNearestRoad roadCheck overpass dist lat lon poiType =
          { latitude := lat, longitude := lon, adjusted := false
            distance_meters := none, source := "original" }) ∧
      (∀ c : ClosestRoad,
        findNearestRoad (overpass (getValidationRules poiType).maxSnapDistance)
            dist lat lon = some c →
        snapToNearestRoad roadCheck overpass dist lat lon poiType =
          { latitude := c.lat, longitude := c.lon, adjusted := true
            distance_meters := some c.distance, source := "road_snapped" })) := by
  refine ⟨⟨?_, ?_, ?_, ?_, ?_, ?_, ?_, ?_, ?_, ?_, ?_, ?_, ?_, ?_⟩, ?_⟩
  · rfl
  · rfl
  · rfl
  · rfl
  · rfl
  · rfl
  · rfl
  · rfl
  · rfl
  · rfl
  · rfl
  · rfl
  · rfl
  · intro s hs
    by_cases he : lowerStr s = ""
    · simp [getValidationRules, he]; rfl
    · simp [getValidationRules, he, hs]
  · intro hroad
    refine ⟨?_, ?_, ?_⟩
    · intro hagree
      simp [snapToNearestRoad, hroad, hagree]
    · intro hnone
      simp [snapToNearestRoad, hroad, hnone]
    · intro c hsome
      simp [snapToNearestRoad, hroad, hsome]

/-- C7 witness: an off-road coordinate of an unmapped category queried
against an empty road inventory stays unmodified with adjusted = false,
and a school-category coordinate with a road node at 80 m is snapped. -/
theorem snap_rules_and_behavior_witness :
    snapToNearestRoad (.okResp []) (fun _ => .okResp []) (fun _ _ _ _ => 0)
        14 121 (some "gymnasium") =
      { latitude := 14, longitude := 121, adjusted := false
        distance_meters := none, source := "original" } ∧
    snapToNearestRoad (.okResp []) (fun _ => .okResp [[(14.001, 121)]])
        (fun _ _ _ _ => 80) 14 121 (some "school") =
      { latitude := 14.001, longitude := 121, adjusted := true
        distance_meters := some 80, source := "road_snapped" } := by
  constructor
  · exact ((snap_rules_and_behavior (.okResp []) (fun _ => .okResp [])
      (fun _ => .okResp []) (fun _ _ _ _ => 0) 14 121 (some "gymnasium")).2
        (by decide)).2.1 rfl
  · exact (((snap_rules_and_behavior (.okResp [])
      (fun _ => .okResp [[(14.001, 121)]]) (fun _ => .okResp [[(14.001, 121)]])
      (fun _ _ _ _ => 80) 14 121 (some "school")).2 (by decide)).2.2
        ⟨14.001, 121, 80⟩ rfl)

theorem jsToFixed6_lat : jsToFixed 6 (14.6186 : ℚ) = "14.618600" := by
  have h : jsRound ((14.6186 : ℚ) * 10 ^ 6) = 14618600 := by
    unfold jsRound
    rw [Int.floor_eq_iff]
    constructor <;> norm_num
  rw [jsToFixed, if_neg (by norm_num), h]
  decide

theorem jsToFixed6_lon : jsToFixed 6 (121.0567 : ℚ) = "121.056700" := by
  have h : jsRound ((121.0567 : ℚ) * 10 ^ 6) = 121056700 := by
    unfold jsRound
    rw [Int.floor_eq_iff]
    constructor <;> norm_num
  rw [jsToFixed, if_neg (by norm_num), h]
  decide

/-- C10: the reverse-geocode handler rejects malformed input with HTTP 400:
a missing or non-numeric lat or lon (parseFloat gives NaN, modelled none)
and out-of-range coordinates never produce a fallback place. -/
theorem reverse_rejects_malformed (nowMs : ℕ)
    (cacheOutcome : Except Unit (Option Loc))
    (photonResult nominatimResult : Option RevPlace) :
    (∀ lonP, reverseHandler none lonP nowMs cacheOutcome photonResult
        nominatimResult =
      .err 400 "Invalid coordinates. Required: lat and lon query parameters") ∧
    (∀ latP, reverseHandler latP none nowMs cacheOutcome photonResult
        nominatimResult =
      .err 400 "Invalid coordinates. Required: lat and lon query parameters") ∧
    (∀ la lo : ℚ, la < -90 ∨ la > 90 ∨ lo < -180 ∨ lo > 180 →
      reverseHandler (some la) (some lo) nowMs cacheOutcome photonResult
          nominatimResult =
        .err 400 "Coordinates out of range") := by
  refine ⟨?_, ?_, ?_⟩
  · intro lonP; cases lonP <;> rfl
  · intro latP; cases latP <;> rfl
  · intro la lo h
    simp [reverseHandler, h]

/-- C10 witness: latitude 91 is out of range and lat missing is rejected. -/
theorem reverse_rejects_malformed_witness :
    reverseHandler (some 91) (some 0) 0 (.ok none) none none =
      .err 400 "Coordinates out of range" ∧
    reverseHandler none (some 0) 0 (.ok none) none none =
      .err 400 "Invalid coordinates. Required: lat and lon query parameters" := by
  constructor
  · exact (reverse_rejects_malformed 0 (.ok none) none none).2.2 91 0
      (by norm_num)
  · exact (reverse_rejects_malformed 0 (.ok none) none none).1 (some 0)

/-- C4: for in-range coordinates the reverse-geocode handler never returns
an error response: a cache hit yields the stored place with source
"cache"; if both providers fail it yields the synthetic result named
"Selected Location" with the coordinates echoed to 6 decimal places and
source "fallback"; an unexpected internal error (the cache lookup throwing)
yields the same shape with source "error_fallback". -/
theorem reverse_never_errors (la lo : ℚ) (nowMs : ℕ)
    (cacheOutcome : Except Unit (Option Loc))
    (photonResult nominatimResult : Option RevPlace)
    (hla1 : -90 ≤ la) (hla2 : la ≤ 90) (hlo1 : -180 ≤ lo) (hlo2 : lo ≤ 180) :
    (∀ cached, cacheOutcome = .ok (some cached) →
      reverseHandler (some la) (some lo) nowMs cacheOutcome photonResult
          nominatimResult =
        .ok { id := cached.id, name := cached.name, address := cached.address
              latitude := cached.latitude, longitude := cached.longitude
              rtype := cached.ltype, source := "cache" }) ∧
    (cacheOutcome = .ok none → photonResult = none → nominatimResult = none →
      reverseHandler (some la) (some lo) nowMs cacheOutcome photonResult
          nominatimResult =
        .ok { id := "coord_" ++ jsToFixed 4 la ++ "_" ++ jsToFixed 4 lo
              name := "Selected Location"
              address := jsToFixed 6 la ++ ", " ++ jsToFixed 6 lo
              latitude := la, longitude := lo
              rtype := "pin_drop", source := "fallback" }) ∧
    (cacheOutcome = .error () →
      reverseHandler (some la) (some lo) nowMs cacheOutcome photonResult
          nominatimResult =
        .ok { id := "error_" ++ toString nowMs
              name := "Selected Location"
              address := jsToFixed 6 la ++ ", " ++ jsToFixed 6 lo
              latitude := la, longitude := lo
              rtype := "pin_drop", source := "error_fallback" }) ∧
    (∃ body, reverseHandler (some la) (some lo) nowMs cacheOutcome photonResult
        nominatimResult = .ok body) := by
  have hrange : ¬ (la < -90 ∨ la > 90 ∨ lo < -180 ∨ lo > 180) := by
    push_neg
    exact ⟨by linarith, by linarith, by linarith, by linarith⟩
  refine ⟨?_, ?_, ?_, ?_⟩
  · intro cached hc
    simp [reverseHandler, hrange, hc]
  · intro hc hp hn
    simp [reverseHandler, hrange, hc, hp, hn]
  · intro hc
    simp [reverseHandler, hrange, hc]
  · match cacheOutcome with
    | .error _ => simp [reverseHandler, hrange]
    | .ok (some cached) => simp [reverseHandler, hrange]
    | .ok none =>
      match photonResult with
      | some r => simp [reverseHandler, hrange]
      | none =>
        match nominatimResult with
        | some r => simp [reverseHandler, hrange]
        | none => simp [reverseHandler, hrange]

/-- C4 witness: with an empty cache and both providers failed at
(14.6186, 121.0567), the handler answers 200 with the fallback pin, the
coordinates echoed to 6 decimals and source "fallback". -/
theorem reverse_never_errors_witness :
    reverseHandler (some 14.6186) (some 121.0567) 7 (.ok none) none none =
      .ok { id := "coord_14.6186_121.0567"
            name := "Selected Location"
            address := "14.618600, 121.056700"
            latitude := 14.6186, longitude := 121.0567
            rtype := "pin_drop", source := "fallback" } := by
  have h := (reverse_never_errors 14.6186 121.0567 7 (.ok none) none none
    (by norm_num) (by norm_num) (by norm_num) (by norm_num)).2.1 rfl rfl rfl
  rw [h, jsToFixed_lat, jsToFixed_lon, jsToFixed6_lat, jsToFixed6_lon]
  simp only [RevResp.ok.injEq, RevPlace.mk.injEq]
  exact ⟨by decide, trivial, by decide, trivial, trivial, trivial, trivial⟩

theorem foldl_keys_eq_keyList (ls : List Loc) :
    ∀ init : List String,
      ls.foldl (fun s x => s ++ [nameKey x, coordKey x]) init =
        init ++ keyList ls := by
  induction ls with
  | nil => intro init; simp [keyList]
  | cons a as ih =>
    intro init
    rw [List.foldl_cons, ih]
    simp [keyList]

theorem addUnique_eq_acceptedProviders : ∀ (items : List Loc)
    (st : List Loc × List String),
    addUnique st items =
      (st.1 ++ acceptedProviders st.2 items,
       st.2 ++ keyList (acceptedProviders st.2 items)) := by
  intro items
  induction items with
  | nil =>
    intro st
    simp [addUnique, acceptedProviders, keyList]
  | cons a rest ih =>
    intro st
    have hstep : addUnique st (a :: rest) = addUnique (addStep st a) rest := by
      simp [addUnique]
    by_cases h : ¬ st.2.contains (nameKey a) ∧ ¬ st.2.contains (coordKey a)
    · have ha : addStep st a = (st.1 ++ [a], st.2 ++ [nameKey a, coordKey a]) := by
        unfold addStep
        rw [if_pos h]
      rw [hstep, ha, ih]
      rw [acceptedProviders, if_pos h]
      simp [keyList]
    · have ha : addStep st a = st := by
        unfold addStep
        rw [if_neg h]
      rw [hstep, ha, ih]
      rw [acceptedProviders, if_neg h]

theorem addUnique_shape : ∀ (results : List Loc) (st : List Loc × List String),
    ∃ t s2, addUnique st results = (st.1 ++ t, s2) ∧ t.Sublist results := by
  intro results
  induction results with
  | nil =>
    intro st
    exact ⟨[], st.2, by simp [addUnique], List.nil_sublist _⟩
  | cons a as ih =>
    intro st
    have hstep : addUnique st (a :: as) = addUnique (addStep st a) as := by
      simp [addUnique]
    by_cases h : ¬ st.2.contains (nameKey a) ∧ ¬ st.2.contains (coordKey a)
    · have ha : addStep st a = (st.1 ++ [a], st.2 ++ [nameKey a, coordKey a]) := by
        unfold addStep
        rw [if_pos h]
      obtain ⟨t, s2, heq, hsub⟩ := ih (addStep st a)
      refine ⟨a :: t, s2, ?_, hsub.cons₂ a⟩
      rw [hstep, heq, ha]
      simp
    · have ha : addStep st a = st := by
        unfold addStep
        rw [if_neg h]
      obtain ⟨t, s2, heq, hsub⟩ := ih st
      exact ⟨t, s2, by rw [hstep, ha, heq], hsub.cons a⟩

theorem nameKey_robinsonsLocal :
    nameKey robinsonsLocal = "robinsons galleria" := by decide

theorem nameKey_robinsonsProvider :
    nameKey robinsonsProvider = "robinsons galleria mall" := by decide

theorem coordKey_robinsonsLocal :
    coordKey robinsonsLocal = "14.6186,121.0567" := by
  show jsToFixed 4 robinsonsLocal.latitude ++ "," ++
    jsToFixed 4 robinsonsLocal.longitude = _
  rw [show robinsonsLocal.latitude = (14.6186 : ℚ) from rfl,
    show robinsonsLocal.longitude = (121.0567 : ℚ) from rfl,
    jsToFixed_lat, jsToFixed_lon]
  decide

theorem coordKey_robinsonsProvider :
    coordKey robinsonsProvider = "14.6186,121.0567" := by
  show jsToFixed 4 robinsonsProvider.latitude ++ "," ++
    jsToFixed 4 robinsonsProvider.longitude = _
  rw [show robinsonsProvider.latitude = (14.6186 : ℚ) from rfl,
    show robinsonsProvider.longitude = (121.0567 : ℚ) from rfl,
    jsToFixed_lat, jsToFixed_lon]
  decide

/-- C2: mergeResults keeps every local candidate first in original order,
then the accepted Photon candidates in order, then the accepted Nominatim
candidates in order; a provider candidate is dropped exactly when its
lower-cased name or its 4-decimal coordinate key is already claimed by an
earlier accepted candidate (the acceptedProviders characterization); and
in the spec scenario the provider candidate named "Robinsons Galleria
Mall" at the same 4-decimal coordinate as the local "Robinsons Galleria"
entry is dropped, leaving exactly the local entry. -/
theorem mergeResults_local_first (l p n : List Loc) :
    (mergeResults l p n).take l.length = l ∧
    (∃ tp tn, mergeResults l p n = l ++ (tp ++ tn) ∧
      tp.Sublist p ∧ tn.Sublist n) ∧
    mergeResults l p n = l ++ acceptedProviders (keyList l) (p ++ n) ∧
    mergeResults [robinsonsLocal] [robinsonsProvider] [] = [robinsonsLocal] := by
  have hshape : ∀ l0 p0 n0 : List Loc, ∃ tp tn,
      mergeResults l0 p0 n0 = l0 ++ (tp ++ tn) ∧
      tp.Sublist p0 ∧ tn.Sublist n0 := by
    intro l0 p0 n0
    obtain ⟨tp, s2, h1, hsubp⟩ := addUnique_shape p0
      (l0, l0.foldl (fun s x => s ++ [nameKey x, coordKey x]) [])
    obtain ⟨tn, s3, h2, hsubn⟩ := addUnique_shape n0 (l0 ++ tp, s2)
    refine ⟨tp, tn, ?_, hsubp, hsubn⟩
    show (addUnique (addUnique
      (l0, l0.foldl (fun s x => s ++ [nameKey x, coordKey x]) []) p0) n0).1 =
      l0 ++ (tp ++ tn)
    rw [h1, h2]
    simp
  refine ⟨?_, hshape l p n, ?_, ?_⟩
  · obtain ⟨tp, tn, heq, _, _⟩ := hshape l p n
    rw [heq, List.take_left]
  · show (addUnique (addUnique
      (l, l.foldl (fun s x => s ++ [nameKey x, coordKey x]) []) p) n).1 =
      l ++ acceptedProviders (keyList l) (p ++ n)
    rw [foldl_keys_eq_keyList l [], List.nil_append]
    have hcomp : addUnique (addUnique (l, keyList l) p) n =
        addUnique (l, keyList l) (p ++ n) := by
      simp [addUnique, List.foldl_append]
    rw [hcomp, addUnique_eq_acceptedProviders (p ++ n) (l, keyList l)]
  · have hcond : addStep
        ([robinsonsLocal], [nameKey robinsonsLocal, coordKey robinsonsLocal])
        robinsonsProvider =
        ([robinsonsLocal], [nameKey robinsonsLocal, coordKey robinsonsLocal]) := by
      rw [addStep, if_neg]
      rw [nameKey_robinsonsLocal, nameKey_robinsonsProvider,
        coordKey_robinsonsLocal, coordKey_robinsonsProvider]
      decide
    show (addUnique (addUnique
      ([robinsonsLocal],
        [robinsonsLocal].foldl (fun s x => s ++ [nameKey x, coordKey x]) [])
      [robinsonsProvider]) []).1 = [robinsonsLocal]
    have hseen : [robinsonsLocal].foldl
        (fun s x => s ++ [nameKey x, coordKey x]) ([] : List String) =
        [nameKey robinsonsLocal, coordKey robinsonsLocal] := by
      simp
    rw [hseen]
    show (addUnique (addStep
      ([robinsonsLocal], [nameKey robinsonsLocal, coordKey robinsonsLocal])
      robinsonsProvider) []).1 = [robinsonsLocal]
    rw [hcond]
    rfl

/-- C5: at the failing input the heuristic ladder fires even though the
data source supplied a trigram-similarity value: a searchWithProximity row
carries the SQL similarity under the alias text_score, while
calculateTextScore only reads a field named text_similarity, which no data
source of the repository ever sets. For query "jollibee" the row named
"Jollibee Ortigas" with SQL similarity 0.9 scores 0.8 (ladder), not 0.9;
the verbatim branch fires only for the field name the repository never
produces. -/
theorem textScore_ignores_sql_similarity :
    calculateTextScore jollibeeOrtigasRow "jollibee" = 0.8 ∧
    jollibeeOrtigasRow.text_score = some 0.9 ∧
    (0.8 : ℚ) ≠ (0.9 : ℚ) ∧
    calculateTextScore
      { jollibeeOrtigasRow with text_similarity := some 0.9 } "jollibee" = 0.9 := by
  refine ⟨rfl, rfl, by norm_num, rfl⟩

/-- C1: the four ranking weights sum to exactly 1; every ranked candidate
carries a final score equal to 0.35 text + 0.30 proximity + 0.20 popularity
+ 0.15 personalization, and whenever the four sub-scores lie in the unit
interval so does the final score. -/
theorem rankSearchResults_weights (log10 : ℚ → ℚ) (results : List Loc)
    (context : SearchContext) (prefsOracle : UserPrefs) :
    WEIGHTS.text + WEIGHTS.proximity + WEIGHTS.popularity + WEIGHTS.user = 1 ∧
    ∀ r ∈ rankSearchResults log10 results context prefsOracle,
      r.final_score = 0.35 * r.text_score + 0.30 * r.proximity_score +
        0.20 * r.popularity_score + 0.15 * r.user_score ∧
      (0 ≤ r.text_score ∧ r.text_score ≤ 1 →
       0 ≤ r.proximity_score ∧ r.proximity_score ≤ 1 →
       0 ≤ r.popularity_score ∧ r.popularity_score ≤ 1 →
       0 ≤ r.user_score ∧ r.user_score ≤ 1 →
       0 ≤ r.final_score ∧ r.final_score ≤ 1) := by
  constructor
  · norm_num [WEIGHTS]
  · intro r hr
    simp only [rankSearchResults, List.mem_mergeSort, List.mem_map] at hr
    obtain ⟨x, hx, rfl⟩ := hr
    simp only [scoreResult, WEIGHTS]
    constructor
    · ring
    · intro h1 h2 h3 h4
      constructor
      · nlinarith [h1.1, h2.1, h3.1, h4.1]
      · nlinarith [h1.2, h2.2, h3.2, h4.2]

/-- C1 witness: the sample candidate with trigram similarity 0.5 and a
10 km distance has final score 0.325 = 0.35·0.5 + 0.30·0.5, inside the
unit interval. -/
theorem rankSearchResults_weights_witness :
    (scoreResult (fun _ => 0) "sample" { frequentPlaces := [], savedPlaces := [] }
        sampleLoc).final_score =
      0.35 * (scoreResult (fun _ => 0) "sample"
          { frequentPlaces := [], savedPlaces := [] } sampleLoc).text_score +
      0.30 * (scoreResult (fun _ => 0) "sample"
          { frequentPlaces := [], savedPlaces := [] } sampleLoc).proximity_score +
      0.20 * (scoreResult (fun _ => 0) "sample"
          { frequentPlaces := [], savedPlaces := [] } sampleLoc).popularity_score +
      0.15 * (scoreResult (fun _ => 0) "sample"
          { frequentPlaces := [], savedPlaces := [] } sampleLoc).user_score ∧
    0 ≤ (scoreResult (fun _ => 0) "sample"
        { frequentPlaces := [], savedPlaces := [] } sampleLoc).final_score ∧
    (scoreResult (fun _ => 0) "sample"
        { frequentPlaces := [], savedPlaces := [] } sampleLoc).final_score ≤ 1 := by
  have hmem : scoreResult (fun _ => 0) "sample"
      { frequentPlaces := [], savedPlaces := [] } sampleLoc ∈
      rankSearchResults (fun _ => 0) [sampleLoc]
        { query := "sample", userId := none }
        { frequentPlaces := [], savedPlaces := [] } := by
    simp only [rankSearchResults, List.mem_mergeSort, List.mem_map]
    exact ⟨sampleLoc, List.mem_singleton.mpr rfl, rfl⟩
  have h := (rankSearchResults_weights (fun _ => 0) [sampleLoc]
    { query := "sample", userId := none }
    { frequentPlaces := [], savedPlaces := [] }).2 _ hmem
  have ht : (scoreResult (fun _ => 0) "sample"
      { frequentPlaces := [], savedPlaces := [] } sampleLoc).text_score = 0.5 := rfl
  have hp : (scoreResult (fun _ => 0) "sample"
      { frequentPlaces := [], savedPlaces := [] } sampleLoc).proximity_score =
      1 - 10 / 20 := by
    show calculateProximityScore sampleLoc.distance_km = 1 - 10 / 20
    rw [show sampleLoc.distance_km = some 10 from rfl]
    rw [calculateProximityScore]
    rw [if_neg (by rw [MAX_DISTANCE]; norm_num), MAX_DISTANCE]
  have hpop : (scoreResult (fun _ => 0) "sample"
      { frequentPlaces := [], savedPlaces := [] } sampleLoc).popularity_score = 0 := by
    show calculatePopularityScore (fun _ => 0) sampleLoc.search_count = 0
    rw [show sampleLoc.search_count = (0 : ℚ) from rfl]
    rw [calculatePopularityScore]
    rw [if_pos (by norm_num)]
  have hu : (scoreResult (fun _ => 0) "sample"
      { frequentPlaces := [], savedPlaces := [] } sampleLoc).user_score =
      min 0 1.0 := rfl
  refine ⟨h.1, h.2 ?_ ?_ ?_ ?_⟩
  · rw [ht]; norm_num
  · rw [hp]; norm_num
  · rw [hpop]; norm_num
  · rw [hu]; norm_num

/-- C6: with a valid query, a local-store failure propagates as a 500
failure of the whole request; with a successful local store the providers
are consulted exactly when fewer than 5 local results exist (with at least
5 the response ignores the provider outcomes entirely), the request always
succeeds, and a failed provider contributes exactly what an empty provider
result would. -/
theorem searchHandler_provider_policy (log10 : ℚ → ℚ)
    (dist : ℚ → ℚ → ℚ → ℚ → ℚ) (q : String) (userLoc : Option (ℚ × ℚ))
    (userId : Option String) (prefsOracle : UserPrefs)
    (photonOutcome nominatimOutcome po2 no2 : Except Unit (List Loc))
    (hq : 2 ≤ (trimStr q).length) :
    (searchHandler log10 dist q userLoc userId prefsOracle (.error ())
        photonOutcome nominatimOutcome =
      { resp := .err 500 "Internal server error", providersInvoked := false }) ∧
    (∀ localResults, (searchHandler log10 dist q userLoc userId prefsOracle
        (.ok localResults) photonOutcome nominatimOutcome).providersInvoked =
      decide (localResults.length < 5)) ∧
    (∀ localResults, 5 ≤ localResults.length →
      searchHandler log10 dist q userLoc userId prefsOracle (.ok localResults)
          photonOutcome nominatimOutcome =
        searchHandler log10 dist q userLoc userId prefsOracle (.ok localResults)
          po2 no2) ∧
    (∀ localResults, ∃ rs, (searchHandler log10 dist q userLoc userId
        prefsOracle (.ok localResults) photonOutcome nominatimOutcome).resp =
      .ok rs) ∧
    (∀ localResults no,
      searchHandler log10 dist q userLoc userId prefsOracle (.ok localResults)
          (.error ()) no =
        searchHandler log10 dist q userLoc userId prefsOracle (.ok localResults)
          (.ok []) no) ∧
    (∀ localResults po,
      searchHandler log10 dist q userLoc userId prefsOracle (.ok localResults)
          po (.error ()) =
        searchHandler log10 dist q userLoc userId prefsOracle (.ok localResults)
          po (.ok [])) := by
  have hqn : ¬ (trimStr q).length < 2 := by omega
  refine ⟨?_, ?_, ?_, ?_, ?_, ?_⟩
  · simp [searchHandler, hqn]
  · intro localResults
    simp [searchHandler, hqn]
  · intro localResults hlen
    have hinv : ¬ localResults.length < 5 := by omega
    simp [searchHandler, hqn, hinv]
  · intro localResults
    simp [searchHandler, hqn]
  · intro localResults no
    simp [searchHandler, hqn, searchPhoton]
  · intro localResults po
    simp [searchHandler, hqn, searchNominatim]

/-- C6 witness: for the query "jollibee", a failing local store yields the
500 response without touching providers, and an empty local store invokes
them. -/
theorem searchHandler_provider_policy_witness :
    searchHandler (fun _ => 0) (fun _ _ _ _ => 0) "jollibee" none none
        { frequentPlaces := [], savedPlaces := [] } (.error ()) (.ok [])
        (.ok []) =
      { resp := .err 500 "Internal server error", providersInvoked := false } ∧
    (searchHandler (fun _ => 0) (fun _ _ _ _ => 0) "jollibee" none none
        { frequentPlaces := [], savedPlaces := [] } (.ok []) (.ok [])
        (.ok [])).providersInvoked = true := by
  have h := searchHandler_provider_policy (fun _ => 0) (fun _ _ _ _ => 0)
    "jollibee" none none { frequentPlaces := [], savedPlaces := [] }
    (.ok []) (.ok []) (.ok []) (.ok []) (by decide)
  refine ⟨h.1, ?_⟩
  rw [h.2.1 []]
  decide

/-- C9: the search result limit is the fixed constant 10, and every
successful response carries at most 10 ranked results, for every possible
request (the handler reads no caller-supplied limit). -/
theorem searchHandler_limit :
    searchLimit = 10 ∧
    ∀ (log10 : ℚ → ℚ) (dist : ℚ → ℚ → ℚ → ℚ → ℚ) (q : String)
      (userLoc : Option (ℚ × ℚ)) (userId : Option String)
      (prefsOracle : UserPrefs)
      (localOutcome photonOutcome nominatimOutcome : Except Unit (List Loc))
      (rs : List RankedLocation),
      (searchHandler log10 dist q userLoc userId prefsOracle localOutcome
          photonOutcome nominatimOutcome).resp = .ok rs →
      rs.length ≤ 10 := by
  refine ⟨rfl, ?_⟩
  intro log10 dist q userLoc userId prefsOracle localOutcome photonOutcome
    nominatimOutcome rs h
  by_cases hq : (trimStr q).length < 2
  · simp [searchHandler, hq] at h
  · match localOutcome with
    | .error e => simp [searchHandler, hq] at h
    | .ok localResults =>
      simp only [searchHandler, hq, if_false, if_neg hq] at h
      rw [SearchResp.ok.injEq] at h
      rw [← h, List.length_take]
      simp [searchLimit]

/-- C9 witness: an empty local store with empty provider answers yields a
successful response of length 0 ≤ 10. -/
theorem searchHandler_limit_witness :
    ([] : List RankedLocation).length ≤ 10 := by
  have hconc : (searchHandler (fun _ => 0) (fun _ _ _ _ => 0) "jollibee"
      none none { frequentPlaces := [], savedPlaces := [] } (.ok [])
      (.ok []) (.ok [])).resp = .ok [] := by
    have hq : ¬ (trimStr "jollibee").length < 2 := by decide
    simp [searchHandler, hq, mergeResults, addUnique, rankSearchResults,
      searchPhoton, searchNominatim]
  exact searchHandler_limit.2 (fun _ => 0) (fun _ _ _ _ => 0) "jollibee"
    none none { frequentPlaces := [], savedPlaces := [] } (.ok [])
    (.ok []) (.ok []) [] hconc
